import Mathlib

/-!
Verification development for the PDFTools adaptive-compression engine
(src/services/pdfService.ts).  The source ships three revisions of the
service in one file; we embed the pieces the specification talks about:

* the legacy revision (first block): `getAdaptiveConfigLegacy`,
  `getInterpolatedConfigLegacy`, `compressPDFAdaptiveLegacy`;
* the newer adaptive revision (second block): `getAdaptiveConfig`,
  `getInterpolatedConfig`, `compressPDFAdaptive`;
* the smart revision (third block): `compressPDFObjects`, `compressPDFSmart`;
* the shared classifier `analyzePDF` (identical in all blocks).

Numbers are embedded as exact rationals.  Browser-side effects (page
rendering, JPEG encoding, PDF serialization) are external collaborators;
they enter the model as explicit oracle functions, so each theorem is
universally quantified over every behaviour those collaborators can have.
-/

/-- JavaScript `Math.round`: round half toward positive infinity. -/
def jsRound (q : ℚ) : ℤ := ⌊q + 1/2⌋

/-- JavaScript `Number(x.toFixed(2))` on the magnitudes used by the source:
round to the nearest hundredth. -/
def roundTo2 (q : ℚ) : ℚ := (jsRound (q * 100) : ℚ) / 100

theorem jsRound_mono {a b : ℚ} (h : a ≤ b) : jsRound a ≤ jsRound b :=
  Int.floor_le_floor (by linarith)

theorem roundTo2_mono {a b : ℚ} (h : a ≤ b) : roundTo2 a ≤ roundTo2 b := by
  unfold roundTo2
  have h2 : ((jsRound (a * 100) : ℚ)) ≤ ((jsRound (b * 100) : ℚ)) := by
    exact_mod_cast jsRound_mono (by linarith : a * 100 ≤ b * 100)
  linarith

/-- `CompressionLevel` of the legacy and adaptive revisions
(pdfService.ts lines 593 and 1046). -/
inductive CompressionLevel where
  | extreme
  | recommended
  | less
deriving DecidableEq

/-- Rank used to phrase monotonicity in the level (extreme is the most
aggressive preset, less the least). -/
def levelRank : CompressionLevel → ℕ
  | .extreme => 0
  | .recommended => 1
  | .less => 2

/-- `AdaptiveConfig` (pdfService.ts lines 595-599 and 1062-1066). -/
structure AdaptiveConfig where
  scale : ℚ
  quality : ℚ
  projectedDPI : ℤ
deriving DecidableEq

/-- `getAdaptiveConfig` of the adaptive revision (pdfService.ts lines
1071-1098). -/
def getAdaptiveConfig (level : CompressionLevel) (isTextHeavy : Bool) : AdaptiveConfig :=
  let scale0 : ℚ :=
    match level with
    | .extreme => 0.8
    | .recommended => 1.4
    | .less => 2.0
  let quality0 : ℚ :=
    match level with
    | .extreme => 0.4
    | .recommended => 0.6
    | .less => 0.8
  let scale1 := if isTextHeavy then scale0 * 0.85 else scale0
  let quality1 := if isTextHeavy then quality0 - 0.1 else quality0
  { scale := roundTo2 scale1
    quality := roundTo2 quality1
    projectedDPI := jsRound (scale1 * 72) }

/-- Interpolation bounds of the adaptive revision `getInterpolatedConfig`
(pdfService.ts lines 1107-1110): the resolver's configured minima/maxima. -/
def interpolationMinScale : ℚ := 0.6

def interpolationMaxScale : ℚ := 2.0

def interpolationMinQuality : ℚ := 0.3

def interpolationMaxQuality : ℚ := 0.9

/-- `getInterpolatedConfig` of the adaptive revision (pdfService.ts lines
1103-1127).  Only `scale` is damped for text-heavy documents; `quality`
is left as interpolated. -/
def getInterpolatedConfig (value : ℚ) (isTextHeavy : Bool) : AdaptiveConfig :=
  let t := value / 100
  let scale0 := interpolationMinScale + (interpolationMaxScale - interpolationMinScale) * t
  let quality := interpolationMinQuality + (interpolationMaxQuality - interpolationMinQuality) * t
  let scale1 := if isTextHeavy then scale0 * 0.9 else scale0
  { scale := roundTo2 scale1
    quality := roundTo2 quality
    projectedDPI := jsRound (scale1 * 72) }

/-- `getAdaptiveConfig` of the legacy revision (pdfService.ts lines
601-625), with its hard-coded DPI table. -/
def getAdaptiveConfigLegacy (level : CompressionLevel) (isTextHeavy : Bool) : AdaptiveConfig :=
  match level with
  | .extreme =>
      { scale := if isTextHeavy then 1.0 else 0.6
        quality := 0.5
        projectedDPI := if isTextHeavy then 72 else 43 }
  | .less =>
      { scale := 2.0, quality := 0.9, projectedDPI := 144 }
  | .recommended =>
      { scale := if isTextHeavy then 1.5 else 1.0
        quality := 0.7
        projectedDPI := if isTextHeavy then 108 else 72 }

/-- `getInterpolatedConfig` of the legacy revision (pdfService.ts lines
627-643).  The `isTextHeavy` argument is accepted but never used. -/
def getInterpolatedConfigLegacy (sliderValue : ℚ) (isTextHeavy : Bool) : AdaptiveConfig :=
  let minScale : ℚ := 0.5
  let maxScale : ℚ := 2.5
  let scale := minScale + (sliderValue / 100) * (maxScale - minScale)
  let quality := 0.3 + (sliderValue / 100) * 0.7
  { scale := scale, quality := quality, projectedDPI := jsRound (scale * 72) }

/-- Result status shared by the compression orchestrators. -/
inductive CStatus where
  | success
  | blocked
  | error
deriving DecidableEq

/-- Result of the legacy `compressPDFAdaptive` (pdfService.ts lines 701-771):
status, output bytes and the metadata fields the claims mention. -/
structure LegacyResult where
  status : CStatus
  data : List ℕ
  compressedSize : ℕ
  projectedDPI : ℤ
deriving DecidableEq

/-- The legacy `compressPDFAdaptive` (pdfService.ts lines 701-771).
`performPass` is the rasterization pipeline (render each page at the given
scale, JPEG-encode at the given quality, save): an external collaborator,
modelled as an oracle from (scale, quality) to output bytes.  The second
component of the result lists the (scale, quality) of every rasterization
pass actually executed.  The nested safety check of lines 713-715 (outer
condition, then `level === 'extreme'`) is collapsed into one conjunction:
when the outer condition holds but the level is not extreme, the source
falls through to the same compression code as when it does not hold. -/
def compressPDFAdaptiveLegacy (fileBytes : List ℕ) (level : CompressionLevel)
    (overrideSafety : Bool) (customConfig : Option AdaptiveConfig) (isTextHeavy : Bool)
    (performPass : ℚ → ℚ → List ℕ) : LegacyResult × List (ℚ × ℚ) :=
  let config := customConfig.getD (getAdaptiveConfigLegacy level isTextHeavy)
  if overrideSafety = false ∧ config.projectedDPI < 70 ∧ isTextHeavy = true ∧
      level = CompressionLevel.extreme then
    ({ status := CStatus.blocked, data := [], compressedSize := 0, projectedDPI := 0 }, [])
  else
    let pdfBytes := performPass config.scale config.quality
    ({ status := CStatus.success, data := pdfBytes, compressedSize := pdfBytes.length,
       projectedDPI := config.projectedDPI }, [(config.scale, config.quality)])

/-- `CompressionResult.meta` of the adaptive revision (pdfService.ts lines
1048-1060). -/
structure ResultMeta where
  originalSize : ℕ
  compressedSize : ℕ
  effectiveScale : ℚ
  effectiveQuality : ℚ
  iterations : ℕ
  strategyUsed : String
  projectedDPI : ℤ

/-- `CompressionResult` of the adaptive revision (pdfService.ts lines
1048-1060). -/
structure CompressionResult where
  data : List ℕ
  status : CStatus
  meta : ResultMeta

/-- Mutable pass state of the adaptive `compressPDFAdaptive`: the current
result bytes, the `scale`/`quality`/`strategy` variables after the
escalation block (pdfService.ts lines 1207-1242), plus the list of
(scale, quality) pairs of the rasterization passes executed so far. -/
structure PassState where
  resultBytes : List ℕ
  scale : ℚ
  quality : ℚ
  strategy : String
  passes : List (ℚ × ℚ)

/-- `iterations: strategy.includes('Pass') ? 1 : 2` (pdfService.ts line 1270),
written out on the strategy strings the orchestrator can actually produce:
exactly `First Pass` and `Pass 2 Unsafe (Skipped)` contain `Pass`. -/
def strategyIterations (strategy : String) : ℕ :=
  if strategy = "First Pass" ∨ strategy = "Pass 2 Unsafe (Skipped)" then 1 else 2

/-- Config resolution of the adaptive `compressPDFAdaptive` (pdfService.ts
lines 1173-1185): the custom override wins, otherwise `getAdaptiveConfig`. -/
def resolveAdaptiveConfig (level : CompressionLevel) (isTextHeavy : Bool)
    (customConfig : Option AdaptiveConfig) : AdaptiveConfig :=
  customConfig.getD (getAdaptiveConfig level isTextHeavy)

/-- Pass 1 plus the escalation block of the adaptive `compressPDFAdaptive`
(pdfService.ts lines 1207-1242): pass 2 with scale times 0.7 and quality
lowered by 0.2 floored at 0.3 when pass 1 failed to shrink the file (only
without a custom config, and only if the escalated DPI passes the safety
re-check), else the extreme-mode squeeze pass with scale times 0.8. -/
def adaptiveEscalation (fileBytes : List ℕ) (level : CompressionLevel)
    (ignoreSafety : Bool) (customIsNone : Bool) (scale quality : ℚ)
    (performPass : ℚ → ℚ → List ℕ) : PassState :=
  let fileSize := fileBytes.length
  let pass1 := performPass scale quality
  if customIsNone = true ∧ pass1.length ≥ fileSize then
    let aggressiveScale := scale * 0.7
    let aggressiveQuality := max 0.3 (quality - 0.2)
    if ignoreSafety = false ∧ aggressiveScale * 72 < 90 then
      { resultBytes := pass1, scale := scale, quality := quality,
        strategy := "Pass 2 Unsafe (Skipped)", passes := [(scale, quality)] }
    else
      let pass2 := performPass aggressiveScale aggressiveQuality
      if pass2.length < fileSize then
        { resultBytes := pass2, scale := aggressiveScale, quality := aggressiveQuality,
          strategy := "Adaptive Fallback",
          passes := [(scale, quality), (aggressiveScale, aggressiveQuality)] }
      else
        { resultBytes := fileBytes, scale := scale, quality := quality,
          strategy := "No Reduction Possible",
          passes := [(scale, quality), (aggressiveScale, aggressiveQuality)] }
  else if customIsNone = true ∧ level = CompressionLevel.extreme ∧
      (pass1.length : ℚ) > (fileSize : ℚ) * 0.8 then
    let squeezeScale := scale * 0.8
    if ignoreSafety = true ∨ squeezeScale * 72 ≥ 90 then
      let pass2 := performPass squeezeScale quality
      if pass2.length < pass1.length then
        { resultBytes := pass2, scale := squeezeScale, quality := quality,
          strategy := "Adaptive Squeeze", passes := [(scale, quality), (squeezeScale, quality)] }
      else
        { resultBytes := pass1, scale := scale, quality := quality,
          strategy := "First Pass", passes := [(scale, quality), (squeezeScale, quality)] }
    else
      { resultBytes := pass1, scale := scale, quality := quality,
        strategy := "First Pass", passes := [(scale, quality)] }
  else
    { resultBytes := pass1, scale := scale, quality := quality,
      strategy := "First Pass", passes := [(scale, quality)] }

/-- Final check of the adaptive `compressPDFAdaptive` (pdfService.ts lines
1244-1274): if the best pass is still not smaller than the original file,
return the original bytes with strategy `Aborted (Safety Lock)`. -/
def adaptiveFinalize (fileBytes : List ℕ) (st : PassState) : CompressionResult :=
  if st.resultBytes.length ≥ fileBytes.length then
    { data := fileBytes, status := CStatus.success,
      meta := { originalSize := fileBytes.length, compressedSize := fileBytes.length,
                effectiveScale := 0, effectiveQuality := 0, iterations := 2,
                strategyUsed := "Aborted (Safety Lock)",
                projectedDPI := jsRound (st.scale * 72) } }
  else
    { data := st.resultBytes, status := CStatus.success,
      meta := { originalSize := fileBytes.length, compressedSize := st.resultBytes.length,
                effectiveScale := roundTo2 st.scale, effectiveQuality := roundTo2 st.quality,
                iterations := strategyIterations st.strategy, strategyUsed := st.strategy,
                projectedDPI := jsRound (st.scale * 72) } }

/-- The adaptive `compressPDFAdaptive` (pdfService.ts lines 1160-1275):
resolve the config, apply the DPI-90 safety gate, run pass 1 and the
escalation block, then the never-grow final check.  The second component
lists the (scale, quality) of every rasterization pass executed. -/
def compressPDFAdaptive (fileBytes : List ℕ) (level : CompressionLevel)
    (ignoreSafety : Bool) (customConfig : Option AdaptiveConfig) (isTextHeavy : Bool)
    (performPass : ℚ → ℚ → List ℕ) : CompressionResult × List (ℚ × ℚ) :=
  let cfg := resolveAdaptiveConfig level isTextHeavy customConfig
  if ignoreSafety = false ∧ cfg.projectedDPI < 90 then
    ({ data := [], status := CStatus.blocked,
       meta := { originalSize := fileBytes.length, compressedSize := 0,
                 effectiveScale := cfg.scale, effectiveQuality := cfg.quality,
                 iterations := 0, strategyUsed := "Safety Block",
                 projectedDPI := cfg.projectedDPI } }, [])
  else
    let st := adaptiveEscalation fileBytes level ignoreSafety customConfig.isNone
      cfg.scale cfg.quality performPass
    (adaptiveFinalize fileBytes st, st.passes)

/-- `AdvancedCompressionConfig` of the smart revision (pdfService.ts lines
1413-1419). -/
structure AdvancedCompressionConfig where
  scale : ℚ
  quality : ℚ
  grayscale : Bool
  preserveText : Bool
  aggressive : Bool

/-- The four-valued `CompressionLevel` of the smart revision (pdfService.ts
line 1410). -/
inductive SmartCompressionLevel where
  | extreme
  | recommended
  | less
  | custom
deriving DecidableEq

/-- Dictionary of a raw stream object, keeping the entries the recompressor
reads or writes; `rest` stands for all remaining entries (ColorSpace and so
on), which the recompressor never touches. -/
structure StreamDict where
  subtype : Option String
  filterName : Option String
  width : Option ℕ
  height : Option ℕ
  rest : ℕ
deriving DecidableEq

/-- A node of the PDF object graph as `enumerateIndirectObjects` yields it:
either a `PDFRawStream` with its dictionary and payload, or any other kind
of object, opaque to the recompressor. -/
inductive PDFObjectModel where
  | rawStream (dict : StreamDict) (contents : List ℕ)
  | nonStream (payload : ℕ)
deriving DecidableEq

/-- Candidate test of `compressPDFObjects` (pdfService.ts lines 1529-1539):
a raw stream whose dictionary declares `Subtype = Image` and
`Filter = DCTDecode`. -/
def isCandidate : PDFObjectModel → Bool
  | .rawStream d _ => d.subtype = some "Image" && d.filterName = some "DCTDecode"
  | .nonStream _ => false

/-- The dictionary after an accepted replacement: Width and Height updated to
the new pixel dimensions, Filter (re)set to DCTDecode (pdfService.ts lines
1562-1567). -/
def resizedDict (d : StreamDict) (w h : ℕ) : StreamDict :=
  { d with width := some w, height := some h, filterName := some "DCTDecode" }

/-- Per-stream replacement step of `compressPDFObjects` (pdfService.ts lines
1545-1571).  `result` is the outcome of `processImageBuffer` on this
stream: `none` when it threw (the stream is skipped, line 1569), otherwise
the re-encoded payload with its new pixel dimensions.  The payload is
replaced only when strictly smaller; then `Width`/`Height` are set to the
new dimensions and `Filter` is (re)set to `DCTDecode`. -/
def recompressStream (dict : StreamDict) (contents : List ℕ)
    (result : Option (List ℕ × ℕ × ℕ)) : PDFObjectModel :=
  match result with
  | none => .rawStream dict contents
  | some (buf, w, h) =>
    if buf.length < contents.length then
      .rawStream (resizedDict dict w h) buf
    else
      .rawStream dict contents

/-- One object of the graph through `compressPDFObjects`: candidates go
through `recompressStream` with their `processImageBuffer` outcome
(`processImage i scale quality grayscale`, where `i` is the object's
position in the enumeration), everything else is untouched. -/
def recompressObject (config : AdvancedCompressionConfig)
    (processImage : ℕ → ℚ → ℚ → Bool → Option (List ℕ × ℕ × ℕ))
    (i : ℕ) : PDFObjectModel → PDFObjectModel
  | .rawStream d c =>
    if isCandidate (.rawStream d c) then
      recompressStream d c (processImage i config.scale config.quality config.grayscale)
    else
      .rawStream d c
  | .nonStream p => .nonStream p

/-- The object walk of `compressPDFObjects`, carrying the enumeration
index. -/
def compressObjectsFrom (config : AdvancedCompressionConfig)
    (processImage : ℕ → ℚ → ℚ → Bool → Option (List ℕ × ℕ × ℕ)) :
    ℕ → List PDFObjectModel → List PDFObjectModel
  | _, [] => []
  | i, obj :: rest => recompressObject config processImage i obj ::
      compressObjectsFrom config processImage (i + 1) rest

/-- `compressPDFObjects` (pdfService.ts lines 1513-1576): in-place
recompression of every eligible image stream of the document's object
graph.  The source first collects the candidate list and then mutates each
collected stream; since each stream is mutated independently, the result
is the pointwise transformation modelled here. -/
def compressPDFObjects (config : AdvancedCompressionConfig)
    (processImage : ℕ → ℚ → ℚ → Bool → Option (List ℕ × ℕ × ℕ))
    (doc : List PDFObjectModel) : List PDFObjectModel :=
  compressObjectsFrom config processImage 0 doc

/-- Options argument of `compressPDFSmart` (pdfService.ts lines 1650-1655). -/
structure SmartOptions where
  level : SmartCompressionLevel
  preserveText : Option Bool
  grayscale : Option Bool

/-- Option-to-config mapping of `compressPDFSmart` (pdfService.ts lines
1659-1681): base config scale 1.0, quality 0.8, `preserveText` defaulting
to true, then the per-level overrides (no case for `custom`). -/
def smartConfig (options : SmartOptions) : AdvancedCompressionConfig :=
  let base : AdvancedCompressionConfig :=
    { scale := 1.0, quality := 0.8, grayscale := options.grayscale.getD false,
      preserveText := options.preserveText.getD true, aggressive := false }
  match options.level with
  | .extreme => { base with scale := 0.5, quality := 0.4 }
  | .recommended => { base with scale := 0.7, quality := 0.6 }
  | .less => { base with scale := 0.9, quality := 0.8 }
  | .custom => base

/-- External collaborators of `compressPDFSmart`.  `loadedDoc` is the
outcome of reading the file and enumerating its object graph (`error` when
loading or the walk throws, e.g. on a corrupt document); `processImage` is
`processImageBuffer` per enumerated object; `save` is `pdfDoc.save()`;
`visual` is the full-page rasterization `compressPDFVisual` for a given
config (a per-page render/encode loop, modelled as its resulting bytes). -/
structure SmartEnv where
  loadedDoc : Except Unit (List PDFObjectModel)
  processImage : ℕ → ℚ → ℚ → Bool → Option (List ℕ × ℕ × ℕ)
  save : List PDFObjectModel → List ℕ
  visual : AdvancedCompressionConfig → List ℕ

/-- `compressPDFSmart` (pdfService.ts lines 1649-1713).  With
`preserveText`, run the smart/object path (load, deep object optimization,
save); any exception there is caught and answered with the fixed
conservative fallback rasterization at scale 0.5, quality 0.5.  Without
`preserveText`, rasterize directly.  `fileBytes` is the input file, read
by the collaborators in `env`. -/
def compressPDFSmart (fileBytes : List ℕ) (options : SmartOptions)
    (env : SmartEnv) : List ℕ × String :=
  let config := smartConfig options
  if config.preserveText then
    match env.loadedDoc with
    | .error _ =>
        (env.visual { config with scale := 0.5, quality := 0.5 }, "Fallback Rasterization")
    | .ok doc =>
        (env.save (compressPDFObjects config env.processImage doc), "Smart Object Optimization")
  else
    (env.visual config, "Visual Reconstruction")

/-- `analyzePDF` (pdfService.ts lines 43-67, identical in all revisions).
`load` models `getDocument(...).promise`: `none` when loading throws,
otherwise the page count and, per 1-based page index, the number of text
items `getTextContent` reports (`none` when extraction throws on that
page).  Any failure is caught and yields `(false, 0)`.  The average
comparison is exact rational arithmetic; for an empty document the source
compares `NaN > 20`, which is false, matching `0/0 = 0 > 20` here. -/
def analyzePDF (load : Option (ℕ × (ℕ → Option ℕ))) : Bool × ℕ :=
  match load with
  | none => (false, 0)
  | some (numPages, textItems) =>
    let maxPagesToCheck := min numPages 3
    let samples := (List.range maxPagesToCheck).map (fun i => textItems (i + 1))
    if samples.all Option.isSome then
      let totalTextItems : ℕ := (samples.map (fun s => s.getD 0)).sum
      (decide (((totalTextItems : ℚ)) / ((maxPagesToCheck : ℚ)) > 20), numPages)
    else
      (false, 0)

theorem interp_scale_false (v : ℚ) :
    (getInterpolatedConfig v false).scale =
      roundTo2 (interpolationMinScale + (interpolationMaxScale - interpolationMinScale) * (v / 100)) := rfl

theorem interp_scale_true (v : ℚ) :
    (getInterpolatedConfig v true).scale =
      roundTo2 ((interpolationMinScale + (interpolationMaxScale - interpolationMinScale) * (v / 100)) * 0.9) := rfl

theorem interp_quality (v : ℚ) (heavy : Bool) :
    (getInterpolatedConfig v heavy).quality =
      roundTo2 (interpolationMinQuality + (interpolationMaxQuality - interpolationMinQuality) * (v / 100)) := by
  cases heavy <;> rfl

theorem interpLegacy_scale (v : ℚ) (heavy : Bool) :
    (getInterpolatedConfigLegacy v heavy).scale = 0.5 + (v / 100) * (2.5 - 0.5) := by
  cases heavy <;> rfl

theorem interpLegacy_quality (v : ℚ) (heavy : Bool) :
    (getInterpolatedConfigLegacy v heavy).quality = 0.3 + (v / 100) * 0.7 := by
  cases heavy <;> rfl

/-- Claim C5: for fixed isTextHeavy, getAdaptiveConfig produces non-decreasing
scale and quality as the level increases extreme, recommended, less, and
getInterpolatedConfig produces non-decreasing scale and quality as the slider
value increases from 0 to 100 — in both the adaptive revision and the legacy
revision of the resolver. -/
theorem C5_resolver_monotone :
    (∀ (heavy : Bool) (l1 l2 : CompressionLevel), levelRank l1 ≤ levelRank l2 →
      (getAdaptiveConfig l1 heavy).scale ≤ (getAdaptiveConfig l2 heavy).scale ∧
      (getAdaptiveConfig l1 heavy).quality ≤ (getAdaptiveConfig l2 heavy).quality) ∧
    (∀ (heavy : Bool) (l1 l2 : CompressionLevel), levelRank l1 ≤ levelRank l2 →
      (getAdaptiveConfigLegacy l1 heavy).scale ≤ (getAdaptiveConfigLegacy l2 heavy).scale ∧
      (getAdaptiveConfigLegacy l1 heavy).quality ≤ (getAdaptiveConfigLegacy l2 heavy).quality) ∧
    (∀ (heavy : Bool) (v1 v2 : ℚ), 0 ≤ v1 → v1 ≤ v2 → v2 ≤ 100 →
      (getInterpolatedConfig v1 heavy).scale ≤ (getInterpolatedConfig v2 heavy).scale ∧
      (getInterpolatedConfig v1 heavy).quality ≤ (getInterpolatedConfig v2 heavy).quality) ∧
    (∀ (heavy : Bool) (v1 v2 : ℚ), 0 ≤ v1 → v1 ≤ v2 → v2 ≤ 100 →
      (getInterpolatedConfigLegacy v1 heavy).scale ≤ (getInterpolatedConfigLegacy v2 heavy).scale ∧
      (getInterpolatedConfigLegacy v1 heavy).quality ≤ (getInterpolatedConfigLegacy v2 heavy).quality) := by
  refine ⟨?_, ?_, ?_, ?_⟩
  · intro heavy l1 l2 hle
    cases heavy <;> cases l1 <;> cases l2 <;>
      first
        | exact absurd hle (by decide)
        | constructor <;> norm_num [getAdaptiveConfig, roundTo2, jsRound]
  · intro heavy l1 l2 hle
    cases heavy <;> cases l1 <;> cases l2 <;>
      first
        | exact absurd hle (by decide)
        | constructor <;> norm_num [getAdaptiveConfigLegacy]
  · intro heavy v1 v2 h0 h12 h100
    constructor
    · cases heavy
      · rw [interp_scale_false, interp_scale_false]
        exact roundTo2_mono (by unfold interpolationMinScale interpolationMaxScale; linarith)
      · rw [interp_scale_true, interp_scale_true]
        exact roundTo2_mono (by unfold interpolationMinScale interpolationMaxScale; linarith)
    · rw [interp_quality, interp_quality]
      exact roundTo2_mono (by unfold interpolationMinQuality interpolationMaxQuality; linarith)
  · intro heavy v1 v2 h0 h12 h100
    rw [interpLegacy_scale, interpLegacy_scale, interpLegacy_quality, interpLegacy_quality]
    constructor <;> linarith

/-- Claim C5 witness: the slider parts of C5_resolver_monotone applied at the
concrete slider values 10 and 90 (not text-heavy). -/
theorem C5_resolver_monotone_witness :
    (0:ℚ) ≤ 10 ∧ (10:ℚ) ≤ 90 ∧ (90:ℚ) ≤ 100 ∧
    ((getInterpolatedConfig 10 false).scale ≤ (getInterpolatedConfig 90 false).scale ∧
     (getInterpolatedConfig 10 false).quality ≤ (getInterpolatedConfig 90 false).quality) :=
  ⟨by norm_num, by norm_num, by norm_num,
    C5_resolver_monotone.2.2.1 false 10 90 (by norm_num) (by norm_num) (by norm_num)⟩

/-- Claim C6 counterexample: in the legacy resolver, the text-heavy config for
level extreme has a LARGER scale (1.0) than the non-text-heavy one (0.6), not
a damped smaller one; and in the adaptive revision slider resolver the
text-heavy quality equals the non-text-heavy quality (at slider value 50)
instead of being reduced by about 0.1. -/
theorem C6_counterexample :
    (getAdaptiveConfigLegacy CompressionLevel.extreme true).scale >
      (getAdaptiveConfigLegacy CompressionLevel.extreme false).scale ∧
    (getInterpolatedConfig 50 true).quality = (getInterpolatedConfig 50 false).quality := by
  constructor
  · norm_num [getAdaptiveConfigLegacy]
  · rw [interp_quality, interp_quality]

/-- Claim C6 (amended): in the adaptive revision, getAdaptiveConfig with
isTextHeavy damps scale by the fixed factor 0.85 (so the scale is no greater)
and lowers quality by exactly the fixed penalty 0.1; getInterpolatedConfig
damps scale by the fixed factor 0.9 (so no greater, for slider values at least
0) and leaves quality unchanged.  In the legacy revision, getAdaptiveConfig
leaves quality unchanged and gives text-heavy configs a scale at least as
large, and getInterpolatedConfig ignores isTextHeavy entirely. -/
theorem C6_textHeavy_damping :
    (∀ l : CompressionLevel,
      (getAdaptiveConfig l true).scale ≤ (getAdaptiveConfig l false).scale ∧
      (getAdaptiveConfig l true).quality = (getAdaptiveConfig l false).quality - 0.1) ∧
    (∀ v : ℚ, 0 ≤ v →
      (getInterpolatedConfig v true).scale ≤ (getInterpolatedConfig v false).scale ∧
      (getInterpolatedConfig v true).quality = (getInterpolatedConfig v false).quality) ∧
    (∀ l : CompressionLevel,
      (getAdaptiveConfigLegacy l true).quality = (getAdaptiveConfigLegacy l false).quality ∧
      (getAdaptiveConfigLegacy l false).scale ≤ (getAdaptiveConfigLegacy l true).scale) ∧
    (∀ (v : ℚ) (heavy : Bool),
      getInterpolatedConfigLegacy v heavy = getInterpolatedConfigLegacy v false) := by
  refine ⟨?_, ?_, ?_, ?_⟩
  · intro l
    cases l <;> constructor <;> norm_num [getAdaptiveConfig, roundTo2, jsRound]
  · intro v hv
    constructor
    · rw [interp_scale_true, interp_scale_false]
      refine roundTo2_mono ?_
      unfold interpolationMinScale interpolationMaxScale
      nlinarith
    · rw [interp_quality, interp_quality]
  · intro l
    cases l <;> constructor <;> norm_num [getAdaptiveConfigLegacy]
  · intro v heavy
    cases heavy <;> rfl

/-- Claim C6 witness: the slider part of C6_textHeavy_damping applied at the
concrete slider value 50. -/
theorem C6_textHeavy_damping_witness :
    (0:ℚ) ≤ 50 ∧
    ((getInterpolatedConfig 50 true).scale ≤ (getInterpolatedConfig 50 false).scale ∧
     (getInterpolatedConfig 50 true).quality = (getInterpolatedConfig 50 false).quality) :=
  ⟨by norm_num, C6_textHeavy_damping.2.1 50 (by norm_num)⟩

/-- Claim C7 counterexample: at slider value 100 with isTextHeavy true, the
adaptive revision getInterpolatedConfig does NOT return the configured
maximum scale (it returns 1.8, the maximum damped by 0.9). -/
theorem C7_counterexample :
    (getInterpolatedConfig 100 true).scale ≠ interpolationMaxScale := by
  rw [interp_scale_true]
  norm_num [roundTo2, jsRound, interpolationMinScale, interpolationMaxScale]

/-- Claim C7 (amended): at slider value 100 the adaptive revision
getInterpolatedConfig returns exactly the configured maximum scale and
quality when isTextHeavy is false; when isTextHeavy is true the quality is
still the configured maximum but the scale is the maximum damped by 0.9.
The legacy revision returns its maxima (scale 2.5, quality 1.0) for either
value of isTextHeavy. -/
theorem C7_slider_maximum :
    (getInterpolatedConfig 100 false).scale = interpolationMaxScale ∧
    (getInterpolatedConfig 100 false).quality = interpolationMaxQuality ∧
    (getInterpolatedConfig 100 true).quality = interpolationMaxQuality ∧
    (getInterpolatedConfig 100 true).scale = interpolationMaxScale * 0.9 ∧
    (∀ heavy : Bool, (getInterpolatedConfigLegacy 100 heavy).scale = 2.5 ∧
      (getInterpolatedConfigLegacy 100 heavy).quality = 1) := by
  refine ⟨?_, ?_, ?_, ?_, ?_⟩
  · rw [interp_scale_false]
    norm_num [roundTo2, jsRound, interpolationMinScale, interpolationMaxScale]
  · rw [interp_quality]
    norm_num [roundTo2, jsRound, interpolationMinQuality, interpolationMaxQuality]
  · rw [interp_quality]
    norm_num [roundTo2, jsRound, interpolationMinQuality, interpolationMaxQuality]
  · rw [interp_scale_true]
    norm_num [roundTo2, jsRound, interpolationMinScale, interpolationMaxScale]
  · intro heavy
    rw [interpLegacy_scale, interpLegacy_quality]
    norm_num

/-- Claim C9: analyzePDF samples min(pageCount, 3) pages from the front and
returns isTextHeavy true exactly when the total text-fragment count divided by
the number of sampled pages exceeds 20, together with the page count; if
loading or any extraction step throws, it returns (false, 0) instead of
propagating the error. -/
theorem C9_analyzePDF_classification :
    (analyzePDF none = (false, 0)) ∧
    (∀ (numPages : ℕ) (textItems : ℕ → Option ℕ),
      (∃ i, 1 ≤ i ∧ i ≤ min numPages 3 ∧ textItems i = none) →
      analyzePDF (some (numPages, textItems)) = (false, 0)) ∧
    (∀ (numPages : ℕ) (counts : ℕ → ℕ),
      analyzePDF (some (numPages, fun i => some (counts i))) =
        (decide (((((List.range (min numPages 3)).map (fun i => counts (i + 1))).sum : ℕ) : ℚ) /
          (((min numPages 3 : ℕ)) : ℚ) > 20), numPages)) := by
  refine ⟨rfl, ?_, ?_⟩
  · rintro numPages textItems ⟨i, h1, h2, h3⟩
    unfold analyzePDF
    dsimp only
    rw [if_neg]
    intro hall
    rw [List.all_eq_true] at hall
    have hmem : textItems i ∈ (List.range (min numPages 3)).map (fun j => textItems (j + 1)) := by
      refine List.mem_map.mpr ⟨i - 1, List.mem_range.mpr (by omega), ?_⟩
      congr 1
      omega
    have hsome := hall _ hmem
    rw [h3] at hsome
    simp at hsome
  · intro numPages counts
    unfold analyzePDF
    dsimp only
    rw [if_pos]
    · simp [List.map_map, Function.comp_def, Option.getD_some]
    · simp only [List.all_eq_true]
      intro x hx
      obtain ⟨j, hj, rfl⟩ := List.mem_map.mp hx
      rfl

/-- Claim C9 witness: C9_analyzePDF_classification applied to a concrete
2-page document with 30 text fragments per page: the average 30 exceeds the
threshold 20, so it is classified text-heavy with page count 2. -/
theorem C9_analyzePDF_classification_witness :
    analyzePDF (some (2, fun _ => some 30)) = (true, 2) := by
  have h : analyzePDF (some (2, fun _ => some 30)) =
      (decide (((((List.range (min 2 3)).map (fun i => (fun _ => (30:ℕ)) (i + 1))).sum : ℕ) : ℚ) /
        (((min 2 3 : ℕ)) : ℚ) > 20), 2) :=
    C9_analyzePDF_classification.2.2 2 (fun _ => 30)
  rw [h]
  norm_num [List.range_succ]

theorem resolveAdaptiveConfig_none (level : CompressionLevel) (heavy : Bool) :
    resolveAdaptiveConfig level heavy none = getAdaptiveConfig level heavy := rfl

theorem adaptiveEscalation_skip (fileBytes : List ℕ) (level : CompressionLevel)
    (ignoreSafety : Bool) (scale quality : ℚ) (performPass : ℚ → ℚ → List ℕ)
    (hp1 : (performPass scale quality).length ≥ fileBytes.length)
    (hig : ignoreSafety = false) (hdpi : scale * 0.7 * 72 < 90) :
    adaptiveEscalation fileBytes level ignoreSafety true scale quality performPass =
      { resultBytes := performPass scale quality, scale := scale, quality := quality,
        strategy := "Pass 2 Unsafe (Skipped)", passes := [(scale, quality)] } := by
  unfold adaptiveEscalation
  rw [if_pos ⟨rfl, hp1⟩, if_pos ⟨hig, hdpi⟩]

theorem adaptiveEscalation_pass2 (fileBytes : List ℕ) (level : CompressionLevel)
    (ignoreSafety : Bool) (scale quality : ℚ) (performPass : ℚ → ℚ → List ℕ)
    (hp1 : (performPass scale quality).length ≥ fileBytes.length)
    (hns : ¬(ignoreSafety = false ∧ scale * 0.7 * 72 < 90)) :
    adaptiveEscalation fileBytes level ignoreSafety true scale quality performPass =
      (if (performPass (scale * 0.7) (max 0.3 (quality - 0.2))).length < fileBytes.length then
        { resultBytes := performPass (scale * 0.7) (max 0.3 (quality - 0.2)),
          scale := scale * 0.7, quality := max 0.3 (quality - 0.2),
          strategy := "Adaptive Fallback",
          passes := [(scale, quality), (scale * 0.7, max 0.3 (quality - 0.2))] }
      else
        { resultBytes := fileBytes, scale := scale, quality := quality,
          strategy := "No Reduction Possible",
          passes := [(scale, quality), (scale * 0.7, max 0.3 (quality - 0.2))] }) := by
  unfold adaptiveEscalation
  rw [if_pos ⟨rfl, hp1⟩, if_neg hns]

theorem adaptiveEscalation_custom (fileBytes : List ℕ) (level : CompressionLevel)
    (ignoreSafety : Bool) (scale quality : ℚ) (performPass : ℚ → ℚ → List ℕ) :
    adaptiveEscalation fileBytes level ignoreSafety false scale quality performPass =
      { resultBytes := performPass scale quality, scale := scale, quality := quality,
        strategy := "First Pass", passes := [(scale, quality)] } := by
  unfold adaptiveEscalation
  rw [if_neg (by simp), if_neg (by simp)]

theorem adaptiveFinalize_abort (fileBytes : List ℕ) (st : PassState)
    (h : st.resultBytes.length ≥ fileBytes.length) :
    adaptiveFinalize fileBytes st =
      { data := fileBytes, status := CStatus.success,
        meta := { originalSize := fileBytes.length, compressedSize := fileBytes.length,
                  effectiveScale := 0, effectiveQuality := 0, iterations := 2,
                  strategyUsed := "Aborted (Safety Lock)",
                  projectedDPI := jsRound (st.scale * 72) } } := by
  unfold adaptiveFinalize
  rw [if_pos h]

theorem adaptiveFinalize_self (fileBytes : List ℕ) (sc q : ℚ) (strat : String)
    (ps : List (ℚ × ℚ)) :
    adaptiveFinalize fileBytes
      { resultBytes := fileBytes, scale := sc, quality := q, strategy := strat, passes := ps } =
      { data := fileBytes, status := CStatus.success,
        meta := { originalSize := fileBytes.length, compressedSize := fileBytes.length,
                  effectiveScale := 0, effectiveQuality := 0, iterations := 2,
                  strategyUsed := "Aborted (Safety Lock)",
                  projectedDPI := jsRound (sc * 72) } } :=
  adaptiveFinalize_abort fileBytes _ (le_refl _)

theorem adaptiveFinalize_status (fileBytes : List ℕ) (st : PassState) :
    (adaptiveFinalize fileBytes st).status = CStatus.success := by
  unfold adaptiveFinalize
  split <;> rfl

theorem adaptiveFinalize_never_grows (fileBytes : List ℕ) (st : PassState) :
    (adaptiveFinalize fileBytes st).data.length ≤ fileBytes.length := by
  unfold adaptiveFinalize
  split_ifs with h
  · exact le_refl _
  · exact le_of_lt (lt_of_not_ge h)

theorem compressPDFAdaptive_blocked_eq (fileBytes : List ℕ) (level : CompressionLevel)
    (ignoreSafety : Bool) (customConfig : Option AdaptiveConfig) (heavy : Bool)
    (performPass : ℚ → ℚ → List ℕ)
    (h : ignoreSafety = false ∧ (resolveAdaptiveConfig level heavy customConfig).projectedDPI < 90) :
    compressPDFAdaptive fileBytes level ignoreSafety customConfig heavy performPass =
      ({ data := [], status := CStatus.blocked,
         meta := { originalSize := fileBytes.length, compressedSize := 0,
                   effectiveScale := (resolveAdaptiveConfig level heavy customConfig).scale,
                   effectiveQuality := (resolveAdaptiveConfig level heavy customConfig).quality,
                   iterations := 0, strategyUsed := "Safety Block",
                   projectedDPI := (resolveAdaptiveConfig level heavy customConfig).projectedDPI } }, []) := by
  unfold compressPDFAdaptive
  rw [if_pos h]

theorem compressPDFAdaptive_run_eq (fileBytes : List ℕ) (level : CompressionLevel)
    (ignoreSafety : Bool) (customConfig : Option AdaptiveConfig) (heavy : Bool)
    (performPass : ℚ → ℚ → List ℕ)
    (h : ¬(ignoreSafety = false ∧ (resolveAdaptiveConfig level heavy customConfig).projectedDPI < 90)) :
    compressPDFAdaptive fileBytes level ignoreSafety customConfig heavy performPass =
      (adaptiveFinalize fileBytes
        (adaptiveEscalation fileBytes level ignoreSafety customConfig.isNone
          (resolveAdaptiveConfig level heavy customConfig).scale
          (resolveAdaptiveConfig level heavy customConfig).quality performPass),
       (adaptiveEscalation fileBytes level ignoreSafety customConfig.isNone
          (resolveAdaptiveConfig level heavy customConfig).scale
          (resolveAdaptiveConfig level heavy customConfig).quality performPass).passes) := by
  unfold compressPDFAdaptive
  rw [if_neg h]

theorem adaptiveEscalation_passes_ne_nil (fileBytes : List ℕ) (level : CompressionLevel)
    (ignoreSafety customIsNone : Bool) (scale quality : ℚ) (performPass : ℚ → ℚ → List ℕ) :
    (adaptiveEscalation fileBytes level ignoreSafety customIsNone scale quality performPass).passes ≠ [] := by
  unfold adaptiveEscalation
  dsimp only
  split_ifs <;> simp

/-- Smart-path environment whose collaborators make the output grow: loading
succeeds with an empty object graph (nothing is optimized) and pdf-lib
re-serialization emits 3 bytes of container overhead, more than the 1-byte
input; the source has no size guard on this path. -/
def growingSmartEnv : SmartEnv where
  loadedDoc := Except.ok []
  processImage := fun _ _ _ _ => none
  save := fun _ => [0, 0, 0]
  visual := fun _ => []

/-- Options selecting the smart/object path for the C1 counterexample. -/
def growingSmartOptions : SmartOptions where
  level := SmartCompressionLevel.recommended
  preserveText := some true
  grayscale := none

/-- Claim C1 counterexample: compressPDFSmart on its Smart Object Optimization
path returns the saved bytes unconditionally, so the output can be strictly
larger than the input; likewise the legacy compressPDFAdaptive returns
status success with whatever the rasterization pass produced, without any
final size check. -/
theorem C1_counterexample :
    ((compressPDFSmart [0] growingSmartOptions growingSmartEnv).2 =
          "Smart Object Optimization" ∧
     (compressPDFSmart [0] growingSmartOptions growingSmartEnv).1.length >
          ([0] : List ℕ).length) ∧
    ((compressPDFAdaptiveLegacy [0] CompressionLevel.less true none false
        (fun _ _ => [0, 0, 0])).1.status = CStatus.success ∧
     (compressPDFAdaptiveLegacy [0] CompressionLevel.less true none false
        (fun _ _ => [0, 0, 0])).1.data.length > ([0] : List ℕ).length) := by
  refine ⟨⟨rfl, by decide⟩, rfl, by decide⟩

/-- Claim C1 (amended): the adaptive-revision compressPDFAdaptive never
returns a success whose output bytes are longer than the input file (its
final check returns the original bytes whenever the best pass failed to
shrink); the legacy variant and compressPDFSmart carry no such guard (see
C1_counterexample). -/
theorem C1_adaptive_never_grows (fileBytes : List ℕ) (level : CompressionLevel)
    (ignoreSafety : Bool) (customConfig : Option AdaptiveConfig) (heavy : Bool)
    (performPass : ℚ → ℚ → List ℕ)
    (hs : (compressPDFAdaptive fileBytes level ignoreSafety customConfig heavy
      performPass).1.status = CStatus.success) :
    (compressPDFAdaptive fileBytes level ignoreSafety customConfig heavy
      performPass).1.data.length ≤ fileBytes.length := by
  by_cases h : ignoreSafety = false ∧
      (resolveAdaptiveConfig level heavy customConfig).projectedDPI < 90
  · rw [compressPDFAdaptive_blocked_eq _ _ _ _ _ _ h] at hs
    simp at hs
  · rw [compressPDFAdaptive_run_eq _ _ _ _ _ _ h]
    exact adaptiveFinalize_never_grows _ _

/-- Claim C1 witness: C1_adaptive_never_grows at a concrete run whose pass
shrinks a 2-byte file to 1 byte. -/
theorem C1_adaptive_never_grows_witness :
    (compressPDFAdaptive [0, 0] CompressionLevel.less true none false
      (fun _ _ => [0])).1.status = CStatus.success ∧
    (compressPDFAdaptive [0, 0] CompressionLevel.less true none false
      (fun _ _ => [0])).1.data.length ≤ ([0, 0] : List ℕ).length :=
  ⟨by decide, C1_adaptive_never_grows [0, 0] CompressionLevel.less true none false
    (fun _ _ => [0]) (by decide)⟩

/-- Claim C2 counterexample: on the legacy path, a call whose resolved config
has projectedDPI 36 (below the legacy threshold 70) on a text-heavy document
with safety not overridden still returns status success, because the legacy
block additionally requires level extreme and here the level is recommended. -/
theorem C2_counterexample :
    (compressPDFAdaptiveLegacy [0, 0] CompressionLevel.recommended false
      (some { scale := 0.5, quality := 0.5, projectedDPI := 36 }) true
      (fun _ _ => [])).1.status = CStatus.success := by
  decide

/-- Claim C2 (amended): in the adaptive revision, projectedDPI below 90 with
safety not ignored yields status blocked with empty output and no pass run,
and with safety ignored the call always proceeds (success, at least one pass)
regardless of DPI.  On the legacy path, DPI below 70 on a text-heavy document
without override is blocked (empty output) ONLY when the level is extreme; for
any other level the call proceeds, and with override it always proceeds. -/
theorem C2_safety_gate :
    (∀ (fileBytes : List ℕ) (level : CompressionLevel) (customConfig : Option AdaptiveConfig)
       (heavy : Bool) (performPass : ℚ → ℚ → List ℕ),
      (resolveAdaptiveConfig level heavy customConfig).projectedDPI < 90 →
      (compressPDFAdaptive fileBytes level false customConfig heavy performPass).1.status =
        CStatus.blocked ∧
      (compressPDFAdaptive fileBytes level false customConfig heavy performPass).1.data = [] ∧
      (compressPDFAdaptive fileBytes level false customConfig heavy performPass).2 = []) ∧
    (∀ (fileBytes : List ℕ) (level : CompressionLevel) (customConfig : Option AdaptiveConfig)
       (heavy : Bool) (performPass : ℚ → ℚ → List ℕ),
      (compressPDFAdaptive fileBytes level true customConfig heavy performPass).1.status =
        CStatus.success ∧
      (compressPDFAdaptive fileBytes level true customConfig heavy performPass).2 ≠ []) ∧
    (∀ (fileBytes : List ℕ) (customConfig : Option AdaptiveConfig)
       (performPass : ℚ → ℚ → List ℕ),
      (customConfig.getD (getAdaptiveConfigLegacy CompressionLevel.extreme true)).projectedDPI < 70 →
      (compressPDFAdaptiveLegacy fileBytes CompressionLevel.extreme false customConfig true
        performPass).1.status = CStatus.blocked ∧
      (compressPDFAdaptiveLegacy fileBytes CompressionLevel.extreme false customConfig true
        performPass).1.data = []) ∧
    (∀ (fileBytes : List ℕ) (level : CompressionLevel) (overrideSafety : Bool)
       (customConfig : Option AdaptiveConfig) (heavy : Bool) (performPass : ℚ → ℚ → List ℕ),
      level ≠ CompressionLevel.extreme →
      (compressPDFAdaptiveLegacy fileBytes level overrideSafety customConfig heavy
        performPass).1.status = CStatus.success) ∧
    (∀ (fileBytes : List ℕ) (level : CompressionLevel) (customConfig : Option AdaptiveConfig)
       (heavy : Bool) (performPass : ℚ → ℚ → List ℕ),
      (compressPDFAdaptiveLegacy fileBytes level true customConfig heavy
        performPass).1.status = CStatus.success) := by
  refine ⟨?_, ?_, ?_, ?_, ?_⟩
  · intro fileBytes level customConfig heavy performPass h
    rw [compressPDFAdaptive_blocked_eq _ _ _ _ _ _ ⟨rfl, h⟩]
    exact ⟨rfl, rfl, rfl⟩
  · intro fileBytes level customConfig heavy performPass
    have h : ¬((true : Bool) = false ∧
        (resolveAdaptiveConfig level heavy customConfig).projectedDPI < 90) := by simp
    rw [compressPDFAdaptive_run_eq _ _ _ _ _ _ h]
    exact ⟨adaptiveFinalize_status _ _, adaptiveEscalation_passes_ne_nil _ _ _ _ _ _ _⟩
  · intro fileBytes customConfig performPass h
    unfold compressPDFAdaptiveLegacy
    rw [if_pos ⟨rfl, h, rfl, rfl⟩]
    exact ⟨rfl, rfl⟩
  · intro fileBytes level overrideSafety customConfig heavy performPass hne
    unfold compressPDFAdaptiveLegacy
    rw [if_neg]
    rintro ⟨-, -, -, hlev⟩
    exact hne hlev
  · intro fileBytes level customConfig heavy performPass
    unfold compressPDFAdaptiveLegacy
    rw [if_neg]
    rintro ⟨h, -⟩
    exact absurd h (by decide)

/-- Claim C2 witness: the adaptive-revision blocking part of C2_safety_gate at
level extreme, not text-heavy: the resolved DPI is 58, below 90, so the call
is blocked with empty output and zero passes. -/
theorem C2_safety_gate_witness :
    (resolveAdaptiveConfig CompressionLevel.extreme false none).projectedDPI < 90 ∧
    ((compressPDFAdaptive [0] CompressionLevel.extreme false none false
        (fun _ _ => [])).1.status = CStatus.blocked ∧
     (compressPDFAdaptive [0] CompressionLevel.extreme false none false
        (fun _ _ => [])).1.data = [] ∧
     (compressPDFAdaptive [0] CompressionLevel.extreme false none false
        (fun _ _ => [])).2 = []) := by
  have hdpi : (resolveAdaptiveConfig CompressionLevel.extreme false none).projectedDPI < 90 := by
    rw [resolveAdaptiveConfig_none]
    norm_num [getAdaptiveConfig, jsRound]
  exact ⟨hdpi, C2_safety_gate.1 [0] CompressionLevel.extreme none false (fun _ _ => []) hdpi⟩

/-- Claim C3: in the adaptive compressPDFAdaptive without a custom config,
when pass 1 is not smaller than the original file, the escalated config is
scale times 0.7 with quality lowered by the fixed delta 0.2 floored at 0.3;
the escalation re-checks the DPI safety gate first, so an escalation whose
DPI (escalated scale times 72) would fall below the 90 floor is skipped
rather than executed unless safety is ignored — and in that case, as well as
when the executed second pass is still not smaller than the original, the
original bytes are returned unchanged with strategyUsed Aborted
(Safety Lock). -/
theorem C3_escalation (fileBytes : List ℕ) (level : CompressionLevel)
    (ignoreSafety : Bool) (heavy : Bool) (performPass : ℚ → ℚ → List ℕ)
    (hgate : ¬(ignoreSafety = false ∧ (getAdaptiveConfig level heavy).projectedDPI < 90))
    (hp1 : (performPass (getAdaptiveConfig level heavy).scale
      (getAdaptiveConfig level heavy).quality).length ≥ fileBytes.length) :
    (ignoreSafety = false ∧ (getAdaptiveConfig level heavy).scale * 0.7 * 72 < 90 →
      (compressPDFAdaptive fileBytes level ignoreSafety none heavy performPass).2 =
        [((getAdaptiveConfig level heavy).scale, (getAdaptiveConfig level heavy).quality)] ∧
      (compressPDFAdaptive fileBytes level ignoreSafety none heavy performPass).1.data =
        fileBytes ∧
      (compressPDFAdaptive fileBytes level ignoreSafety none heavy
        performPass).1.meta.strategyUsed = "Aborted (Safety Lock)") ∧
    (¬(ignoreSafety = false ∧ (getAdaptiveConfig level heavy).scale * 0.7 * 72 < 90) →
      (compressPDFAdaptive fileBytes level ignoreSafety none heavy performPass).2 =
        [((getAdaptiveConfig level heavy).scale, (getAdaptiveConfig level heavy).quality),
         ((getAdaptiveConfig level heavy).scale * 0.7,
          max 0.3 ((getAdaptiveConfig level heavy).quality - 0.2))] ∧
      ((performPass ((getAdaptiveConfig level heavy).scale * 0.7)
          (max 0.3 ((getAdaptiveConfig level heavy).quality - 0.2))).length ≥
            fileBytes.length →
        (compressPDFAdaptive fileBytes level ignoreSafety none heavy performPass).1.data =
          fileBytes ∧
        (compressPDFAdaptive fileBytes level ignoreSafety none heavy
          performPass).1.meta.strategyUsed = "Aborted (Safety Lock)")) := by
  have hrw := compressPDFAdaptive_run_eq fileBytes level ignoreSafety none heavy performPass
    (by rwa [resolveAdaptiveConfig_none])
  rw [resolveAdaptiveConfig_none] at hrw
  simp only [Option.isNone_none] at hrw
  constructor
  · rintro ⟨hig, hdpi⟩
    have hesc := adaptiveEscalation_skip fileBytes level ignoreSafety
      (getAdaptiveConfig level heavy).scale (getAdaptiveConfig level heavy).quality
      performPass hp1 hig hdpi
    rw [hrw, hesc]
    refine ⟨rfl, ?_, ?_⟩
    · rw [adaptiveFinalize_abort _ _ hp1]
    · rw [adaptiveFinalize_abort _ _ hp1]
  · intro hns
    have hesc := adaptiveEscalation_pass2 fileBytes level ignoreSafety
      (getAdaptiveConfig level heavy).scale (getAdaptiveConfig level heavy).quality
      performPass hp1 hns
    rw [hrw, hesc]
    by_cases h2 : (performPass ((getAdaptiveConfig level heavy).scale * 0.7)
        (max 0.3 ((getAdaptiveConfig level heavy).quality - 0.2))).length < fileBytes.length
    · rw [if_pos h2]
      refine ⟨rfl, fun habs => ?_⟩
      omega
    · rw [if_neg h2]
      refine ⟨rfl, fun _ => ?_⟩
      rw [adaptiveFinalize_self]
      exact ⟨rfl, rfl⟩

/-- Claim C3 witness: C3_escalation on a concrete run (level less, safety on,
resolved DPI 144 passes the gate; both passes produce 3 bytes for a 2-byte
file): the escalated pass runs (its DPI 100.8 is above the floor) and, still
not smaller, the original bytes come back under Aborted (Safety Lock). -/
theorem C3_escalation_witness :
    (compressPDFAdaptive [0, 0] CompressionLevel.less false none false
      (fun _ _ => [0, 0, 0])).1.data = [0, 0] ∧
    (compressPDFAdaptive [0, 0] CompressionLevel.less false none false
      (fun _ _ => [0, 0, 0])).1.meta.strategyUsed = "Aborted (Safety Lock)" := by
  have h := (C3_escalation [0, 0] CompressionLevel.less false false (fun _ _ => [0, 0, 0])
    (by norm_num [getAdaptiveConfig, jsRound, roundTo2])
    (by norm_num)).2
    (by norm_num [getAdaptiveConfig, jsRound, roundTo2])
  exact h.2 (by norm_num)

/-- Claim C10: when the adaptive compressPDFAdaptive is called with a custom
config and the safety gate passes, exactly one compression pass is performed
(neither the aggressive escalation pass nor the extreme Adaptive Squeeze pass
runs), and when that single pass's output is not smaller than the input the
final check returns the original bytes with status success. -/
theorem C10_custom_single_pass (fileBytes : List ℕ) (level : CompressionLevel)
    (ignoreSafety : Bool) (c : AdaptiveConfig) (heavy : Bool)
    (performPass : ℚ → ℚ → List ℕ)
    (hgate : ¬(ignoreSafety = false ∧ c.projectedDPI < 90)) :
    (compressPDFAdaptive fileBytes level ignoreSafety (some c) heavy performPass).2 =
      [(c.scale, c.quality)] ∧
    ((performPass c.scale c.quality).length ≥ fileBytes.length →
      (compressPDFAdaptive fileBytes level ignoreSafety (some c) heavy
        performPass).1.data = fileBytes ∧
      (compressPDFAdaptive fileBytes level ignoreSafety (some c) heavy
        performPass).1.status = CStatus.success) := by
  have hrw := compressPDFAdaptive_run_eq fileBytes level ignoreSafety (some c) heavy
    performPass hgate
  simp only [resolveAdaptiveConfig, Option.getD_some, Option.isNone_some] at hrw
  rw [hrw, adaptiveEscalation_custom]
  refine ⟨rfl, fun hp1 => ?_⟩
  rw [adaptiveFinalize_abort _ _ hp1]
  exact ⟨rfl, rfl⟩

/-- Claim C10 witness: C10_custom_single_pass with a concrete custom config
(safety ignored, so the gate passes) whose single pass produces 2 bytes for a
1-byte file: one pass is recorded and the original byte comes back. -/
theorem C10_custom_single_pass_witness :
    (compressPDFAdaptive [0] CompressionLevel.extreme true
      (some { scale := 0.5, quality := 0.5, projectedDPI := 36 }) false
      (fun _ _ => [9, 9])).2 = [((0.5 : ℚ), (0.5 : ℚ))] ∧
    (compressPDFAdaptive [0] CompressionLevel.extreme true
      (some { scale := 0.5, quality := 0.5, projectedDPI := 36 }) false
      (fun _ _ => [9, 9])).1.data = [0] := by
  have h := C10_custom_single_pass [0] CompressionLevel.extreme true
    { scale := 0.5, quality := 0.5, projectedDPI := 36 } false
    (fun _ _ => [9, 9]) (by simp)
  exact ⟨h.1, (h.2 (by norm_num)).1⟩

theorem compressObjectsFrom_length (config : AdvancedCompressionConfig)
    (processImage : ℕ → ℚ → ℚ → Bool → Option (List ℕ × ℕ × ℕ)) :
    ∀ (k : ℕ) (l : List PDFObjectModel),
      (compressObjectsFrom config processImage k l).length = l.length := by
  intro k l
  induction l generalizing k with
  | nil => rfl
  | cons o rest ih => simp [compressObjectsFrom, ih]

theorem compressObjectsFrom_getD (config : AdvancedCompressionConfig)
    (processImage : ℕ → ℚ → ℚ → Bool → Option (List ℕ × ℕ × ℕ)) :
    ∀ (l : List PDFObjectModel) (k i : ℕ), i < l.length →
      (compressObjectsFrom config processImage k l).getD i (.nonStream 0) =
        recompressObject config processImage (k + i) (l.getD i (.nonStream 0)) := by
  intro l
  induction l with
  | nil =>
    intro k i h
    simp at h
  | cons o rest ih =>
    intro k i h
    cases i with
    | zero => simp [compressObjectsFrom]
    | succ j =>
      simp only [compressObjectsFrom, List.getD_cons_succ]
      rw [ih (k + 1) j (by simpa using h)]
      congr 1
      omega

/-- Claim C4: in compressPDFObjects only raw streams declaring Subtype Image
with the DCTDecode (lossy JPEG) filter are candidates; a candidate's payload
is replaced only when the re-encoding is strictly smaller than the original
payload, and every accepted replacement updates the declared Width and Height
to the new pixel dimensions; a candidate whose re-encoding is not strictly
smaller — or whose processing threw — is left untouched, as is every
non-candidate object. -/
theorem C4_object_recompression (config : AdvancedCompressionConfig)
    (processImage : ℕ → ℚ → ℚ → Bool → Option (List ℕ × ℕ × ℕ))
    (doc : List PDFObjectModel) (i : ℕ) (hi : i < doc.length) :
    (compressPDFObjects config processImage doc).length = doc.length ∧
    (isCandidate (doc.getD i (.nonStream 0)) = false →
      (compressPDFObjects config processImage doc).getD i (.nonStream 0) =
        doc.getD i (.nonStream 0)) ∧
    (∀ d c, doc.getD i (.nonStream 0) = .rawStream d c →
      isCandidate (.rawStream d c) = true →
      (processImage i config.scale config.quality config.grayscale = none →
        (compressPDFObjects config processImage doc).getD i (.nonStream 0) =
          .rawStream d c) ∧
      (∀ buf w h,
        processImage i config.scale config.quality config.grayscale = some (buf, w, h) →
        (buf.length < c.length →
          (compressPDFObjects config processImage doc).getD i (.nonStream 0) =
            .rawStream (resizedDict d w h) buf) ∧
        (¬ buf.length < c.length →
          (compressPDFObjects config processImage doc).getD i (.nonStream 0) =
            .rawStream d c))) := by
  unfold compressPDFObjects
  have hget := compressObjectsFrom_getD config processImage doc 0 i hi
  rw [Nat.zero_add] at hget
  refine ⟨compressObjectsFrom_length config processImage 0 doc, ?_, ?_⟩
  · intro hnc
    rw [hget]
    rcases hobj : doc.getD i (.nonStream 0) with ⟨d, c⟩ | p
    · rw [hobj] at hnc
      simp only [recompressObject]
      rw [if_neg]
      simp [hnc]
    · rfl
  · intro d c hobj hcand
    rw [hget, hobj]
    simp only [recompressObject]
    rw [if_pos hcand]
    constructor
    · intro hnone
      rw [hnone]
      rfl
    · intro buf w h hsome
      rw [hsome]
      simp only [recompressStream]
      constructor
      · intro hlt
        rw [if_pos hlt]
      · intro hge
        rw [if_neg hge]

/-- Sample dictionary of an eligible JPEG image stream. -/
def sampleDict : StreamDict :=
  { subtype := some "Image", filterName := some "DCTDecode",
    width := some 10, height := some 10, rest := 0 }

/-- Sample object graph: one eligible image stream and one non-stream object. -/
def sampleDoc : List PDFObjectModel := [.rawStream sampleDict [1, 2, 3], .nonStream 5]

/-- Sample processImageBuffer outcome: re-encoding to 1 byte at 4 by 4 pixels. -/
def sampleProcess : ℕ → ℚ → ℚ → Bool → Option (List ℕ × ℕ × ℕ) :=
  fun _ _ _ _ => some ([9], 4, 4)

/-- Sample advanced config for the object recompressor. -/
def sampleAdvConfig : AdvancedCompressionConfig :=
  { scale := 0.5, quality := 0.5, grayscale := false, preserveText := true, aggressive := false }

/-- Claim C4 witness: C4_object_recompression on the concrete sample graph:
the eligible stream's 3-byte payload is replaced by the strictly smaller
1-byte re-encoding, with Width and Height updated to 4. -/
theorem C4_object_recompression_witness :
    0 < sampleDoc.length ∧
    (compressPDFObjects sampleAdvConfig sampleProcess sampleDoc).getD 0 (.nonStream 0) =
      .rawStream (resizedDict sampleDict 4 4) [9] := by
  have h := C4_object_recompression sampleAdvConfig sampleProcess sampleDoc 0 (by decide)
  refine ⟨by decide, ?_⟩
  exact ((h.2.2 sampleDict [1, 2, 3] rfl (by decide)).2 [9] 4 4 rfl).1 (by decide)

/-- Claim C8: any unexpected exception thrown during compressPDFSmart's
smart/object path is caught and does not escape to the caller (the model is a
total function): the call falls back to full-page rasterization with the
fixed conservative parameters scale 0.5 and quality 0.5 and returns method
Fallback Rasterization. -/
theorem C8_smart_fallback (fileBytes : List ℕ) (options : SmartOptions) (env : SmartEnv)
    (hp : (smartConfig options).preserveText = true)
    (herr : env.loadedDoc = Except.error ()) :
    compressPDFSmart fileBytes options env =
      (env.visual { smartConfig options with scale := 0.5, quality := 0.5 },
       "Fallback Rasterization") := by
  unfold compressPDFSmart
  rw [if_pos hp, herr]

/-- Smart-path environment whose object-graph walk throws (corrupt document)
and whose rasterizer returns a fixed 1-byte output. -/
def throwingSmartEnv : SmartEnv where
  loadedDoc := Except.error ()
  processImage := fun _ _ _ _ => none
  save := fun _ => []
  visual := fun _ => [7]

/-- Options selecting the smart/object path for the C8 witness. -/
def throwingSmartOptions : SmartOptions where
  level := SmartCompressionLevel.extreme
  preserveText := some true
  grayscale := none

/-- Claim C8 witness: C8_smart_fallback on a concrete environment whose
object-graph walk throws: the call returns the rasterizer's output with
method Fallback Rasterization instead of propagating the error. -/
theorem C8_smart_fallback_witness :
    compressPDFSmart [0] throwingSmartOptions throwingSmartEnv =
      ([7], "Fallback Rasterization") := by
  have h := C8_smart_fallback [0] throwingSmartOptions throwingSmartEnv rfl rfl
  rw [h]
  rfl

/-- Claim C7 witness: the legacy part of C7_slider_maximum applied at
isTextHeavy true. -/
theorem C7_slider_maximum_witness :
    (getInterpolatedConfigLegacy 100 true).scale = 2.5 ∧
    (getInterpolatedConfigLegacy 100 true).quality = 1 :=
  C7_slider_maximum.2.2.2.2 true
